import Mathlib

/-!
Verification development for the `s3werkzeugcache` repository
(`src/s3cache/s3cache.py`), a thin cache backend storing pickled
values as objects in an S3-compatible bucket.

The Python code is shallowly embedded as pure Lean functions:
* the remote S3 bucket contents are an association list `Store` from
  full object keys to stored byte payloads;
* the external serializer (`pickle`) is modelled by an executable
  encoder/decoder pair that can fail on encode (unpicklable values)
  and on decode (corrupt payloads), and round-trips otherwise;
* transient failures of the boto3 client calls (`head_object`,
  `download_fileobj`, `upload_fileobj`, `delete_objects`) are governed
  by a `Faults` record: a `true` flag makes the corresponding call
  raise;
* every cache operation additionally returns the list of requests it
  issued to the client (with the storage key each request carried) and
  the resulting bucket state; a Python exception propagating out of an
  operation is the `PRes.exn` constructor.
-/

namespace S3Werkzeug

/-- Result of a Python call: a normal return value, or an uncaught
exception propagating to the caller. -/
inductive PRes (α : Type) where
  | ok (a : α)
  | exn (e : String)
  deriving DecidableEq, Repr

/-- Python values that a caller may store in the cache.  The
`unpicklable` constructor stands for values that `pickle.dump`
rejects (lambdas, open file handles, ...); `none` is Python `None`. -/
inductive PyValue where
  | none
  | bool (b : Bool)
  | int (n : Int)
  | str (s : String)
  | unpicklable (id : Nat)
  deriving DecidableEq, Repr

/-- Serialized object payloads.  `enc v` is a well-formed pickle of
`v`; `corrupt id` is a byte string that fails to unpickle. -/
inductive SBytes where
  | enc (v : PyValue)
  | corrupt (id : Nat)
  deriving DecidableEq, Repr

/-- Model of `pickle.dump`: raises a `PickleError` on unpicklable
values, otherwise produces a payload that decodes back to the value. -/
def pickleDump : PyValue → PRes SBytes
  | .unpicklable _ => .exn "PicklingError"
  | v => .ok (.enc v)

/-- Model of `pickle.load`: raises an `UnpicklingError` on corrupt
payloads, otherwise recovers the encoded value. -/
def pickleLoad : SBytes → PRes PyValue
  | .enc v => .ok v
  | .corrupt _ => .exn "UnpicklingError"

/-- The remote bucket contents: full storage key ↦ stored payload. -/
abbrev Store := List (String × SBytes)

/-- Look an object up in the bucket by its full storage key. -/
def lookupStore : Store → String → Option SBytes
  | [], _ => Option.none
  | (k, b) :: rest, key => if k = key then Option.some b else lookupStore rest key

/-- Remove the object at a full storage key (no-op when absent). -/
def removeStore : Store → String → Store
  | [], _ => []
  | (k, b) :: rest, key =>
    if k = key then removeStore rest key else (k, b) :: removeStore rest key

/-- Overwrite the object at a full storage key. -/
def insertStore (st : Store) (key : String) (b : SBytes) : Store :=
  (key, b) :: removeStore st key

/-- A request issued to the boto3 S3 client, recording the bucket and
the full object key it carried. -/
inductive Request where
  | head (bucket key : String)
  | download (bucket key : String)
  | upload (bucket key : String)
  | delObj (bucket key : String)
  deriving DecidableEq, Repr

/-- The object key carried by a client request. -/
def Request.key : Request → String
  | .head _ k => k
  | .download _ k => k
  | .upload _ k => k
  | .delObj _ k => k

/-- Transient-failure schedule for one cache operation: a `true` flag
makes the corresponding client call raise an exception (network, auth,
... — any `Exception`). -/
structure Faults where
  headFault : Bool
  downloadFault : Bool
  uploadFault : Bool
  deleteFault : Bool
  deriving DecidableEq, Repr

/-- All client calls succeed normally. -/
def noFaults : Faults := ⟨false, false, false, false⟩

/-- The configured key namespace: a literal string, or a zero-argument
callable.  A callable's result may vary over time, so it is modelled
as a function of the moment `env` at which the operation runs. -/
inductive KPfx where
  | literal (s : String)
  | callable (f : Nat → String)

/-- Embedding of `S3Cache.key_prefix` (property): the literal itself, or the result
of calling the callable. -/
def KPfx.eval : KPfx → Nat → String
  | .literal s, _ => s
  | .callable f, env => f env

/-- Configuration of `S3Cache.__init__` relevant to the claims:
bucket name, key namespace, and the (unused) default timeout. -/
structure S3Cache where
  bucket : String
  kPfx : KPfx
  defaultTimeout : Nat

/-- Embedding of `S3Cache._full_s3_key`: the full storage key is the evaluated
namespace value concatenated with the logical key, with no escaping. -/
def S3Cache.fullS3Key (c : S3Cache) (env : Nat) (key : String) : String :=
  c.kPfx.eval env ++ key

/-- Outcome of one cache operation: its (normal or exceptional)
result, the bucket contents afterwards, and the trace of client
requests issued. -/
structure OpResult (α : Type) where
  result : PRes α
  store : Store
  trace : List Request
  deriving DecidableEq

/-- Embedding of `S3Cache._key_exists`: issue `head_object`; any raised error
(not-found or transient) yields `false`.  Returns the probe verdict
and the head request issued. -/
def S3Cache.keyExists (c : S3Cache) (env : Nat) (st : Store) (f : Faults)
    (key : String) : Bool × List Request :=
  let fk := c.fullS3Key env key
  (!f.headFault && (lookupStore st fk).isSome, [Request.head c.bucket fk])

/-- Embedding of `S3Cache.get`: probe existence; on a miss return `None`.  On a hit
download the object — a download error is caught and yields `None` —
then unpickle it *outside* the `try`, so an unpickling error
propagates as an exception. -/
def S3Cache.get (c : S3Cache) (env : Nat) (st : Store) (f : Faults)
    (key : String) : OpResult PyValue :=
  let fk := c.fullS3Key env key
  let probe := c.keyExists env st f key
  if probe.fst = false then
    ⟨.ok PyValue.none, st, probe.snd⟩
  else
    let tr := probe.snd ++ [Request.download c.bucket fk]
    if f.downloadFault then
      ⟨.ok PyValue.none, st, tr⟩
    else
      match lookupStore st fk with
      | Option.none => ⟨.ok PyValue.none, st, tr⟩
      | Option.some b =>
        match pickleLoad b with
        | .exn e => ⟨.exn e, st, tr⟩
        | .ok v => ⟨.ok v, st, tr⟩

/-- Embedding of `S3Cache.delete`: probe existence; on absence return `False`.
Otherwise issue `delete_objects`; an error yields `False`, success
removes the object and yields `True`. -/
def S3Cache.delete (c : S3Cache) (env : Nat) (st : Store) (f : Faults)
    (key : String) : OpResult Bool :=
  let fk := c.fullS3Key env key
  let probe := c.keyExists env st f key
  if probe.fst = false then
    ⟨.ok false, st, probe.snd⟩
  else
    let tr := probe.snd ++ [Request.delObj c.bucket fk]
    if f.deleteFault then
      ⟨.ok false, st, tr⟩
    else
      ⟨.ok true, removeStore st fk, tr⟩

/-- Embedding of `S3Cache.set`: pickle the value *before* the `try` — a pickling
error propagates, and no client request has been issued yet.  Then
upload; an upload error yields `False`, success stores the payload
and yields `True`.  The `timeout` parameter is accepted and ignored. -/
def S3Cache.set (c : S3Cache) (env : Nat) (st : Store) (f : Faults)
    (key : String) (value : PyValue) (timeout : Option Nat) : OpResult Bool :=
  match pickleDump value with
  | .exn e => ⟨.exn e, st, []⟩
  | .ok b =>
    let fk := c.fullS3Key env key
    if f.uploadFault then
      ⟨.ok false, st, [Request.upload c.bucket fk]⟩
    else
      ⟨.ok true, insertStore st fk b, [Request.upload c.bucket fk]⟩

/-- Embedding of `S3Cache.add`: probe existence; if the key exists return `False`
without writing, otherwise defer to `set` (passing `timeout` along). -/
def S3Cache.add (c : S3Cache) (env : Nat) (st : Store) (f : Faults)
    (key : String) (value : PyValue) (timeout : Option Nat) : OpResult Bool :=
  let probe := c.keyExists env st f key
  if probe.fst then
    ⟨.ok false, st, probe.snd⟩
  else
    let r := c.set env st f key value timeout
    ⟨r.result, r.store, probe.snd ++ r.trace⟩

/-- Embedding of `S3Cache.clear`: unconditionally `return False`, touching neither
the client nor the bucket. -/
def S3Cache.clear (_c : S3Cache) (st : Store) : OpResult Bool :=
  ⟨.ok false, st, []⟩

/-- A concrete configuration used to instantiate proved theorems. -/
def sampleCache : S3Cache := ⟨"bucket", KPfx.literal "p/", 300⟩

/-! ### Basic store lemmas -/

theorem lookupStore_insert_self (st : Store) (k : String) (b : SBytes) :
    lookupStore (insertStore st k b) k = Option.some b := by
  simp [insertStore, lookupStore]

theorem lookupStore_remove_self (st : Store) (k : String) :
    lookupStore (removeStore st k) k = Option.none := by
  induction st with
  | nil => simp [removeStore, lookupStore]
  | cons hd tl ih =>
    by_cases h : hd.fst = k
    · simpa [removeStore, h] using ih
    · simp [removeStore, h, lookupStore, ih]

/-- Inversion for a successful pickle: the payload is the well-formed
encoding of the value and decodes back to it. -/
theorem pickleDump_ok {v : PyValue} {b : SBytes}
    (h : pickleDump v = .ok b) : b = .enc v ∧ pickleLoad b = .ok v := by
  cases v <;> simp [pickleDump] at h <;> subst h <;> simp [pickleLoad]

/-- Inversion for a successful `set`: the value pickled, no upload
fault occurred, and the payload now sits at the full storage key. -/
theorem set_ok_true {c : S3Cache} {env : Nat} {st : Store} {f : Faults}
    {k : String} {v : PyValue} {t : Option Nat}
    (h : (c.set env st f k v t).result = PRes.ok true) :
    pickleDump v = PRes.ok (SBytes.enc v) ∧ f.uploadFault = false ∧
    (c.set env st f k v t).store = insertStore st (c.fullS3Key env k) (SBytes.enc v) := by
  cases hv : pickleDump v with
  | exn e => simp [S3Cache.set, hv] at h
  | ok b =>
    obtain ⟨hb, -⟩ := pickleDump_ok hv
    subst hb
    cases hu : f.uploadFault <;> simp [S3Cache.set, hv, hu] at h ⊢

/-! ### Claims -/

/-- C8: `clear` always returns `False`, regardless of the bucket
contents, issues no client request and leaves the store untouched. -/
theorem clear_always_fails (c : S3Cache) (st : Store) :
    c.clear st = ⟨PRes.ok false, st, []⟩ := rfl

/-- C9: the `timeout` argument of `set` and `add` has no effect: any
two timeout arguments give the same return value, the same resulting
store and the same client requests. -/
theorem timeout_no_effect (c : S3Cache) (env : Nat) (st : Store) (f : Faults)
    (k : String) (v : PyValue) (t1 t2 : Option Nat) :
    c.set env st f k v t1 = c.set env st f k v t2 ∧
    c.add env st f k v t1 = c.add env st f k v t2 :=
  ⟨rfl, rfl⟩

/-- C4: `set` propagates pickling errors as exceptions, but swallows
upload errors into the boolean result `False`. -/
theorem set_error_asymmetry (c : S3Cache) (env : Nat) (st : Store) (f : Faults)
    (k : String) (v : PyValue) (t : Option Nat) :
    (∀ e, pickleDump v = PRes.exn e → (c.set env st f k v t).result = PRes.exn e) ∧
    (∀ b, pickleDump v = PRes.ok b → f.uploadFault = true →
      (c.set env st f k v t).result = PRes.ok false) := by
  constructor
  · intro e he
    simp [S3Cache.set, he]
  · intro b hb hu
    simp [S3Cache.set, hb, hu]

/-- Witness for C4 at concrete inputs: an unpicklable value raises,
and an upload fault yields `False`. -/
theorem set_error_asymmetry_witness :
    (sampleCache.set 0 [] noFaults "k" (PyValue.unpicklable 0) Option.none).result
      = PRes.exn "PicklingError" ∧
    (sampleCache.set 0 [] ⟨false, false, true, false⟩ "k" (PyValue.int 1) Option.none).result
      = PRes.ok false :=
  ⟨(set_error_asymmetry sampleCache 0 [] noFaults "k"
      (PyValue.unpicklable 0) Option.none).1 "PicklingError" rfl,
   (set_error_asymmetry sampleCache 0 [] ⟨false, false, true, false⟩ "k"
      (PyValue.int 1) Option.none).2 (SBytes.enc (PyValue.int 1)) rfl rfl⟩

/-- C5: when `head_object` raises (any error), the existence probe
answers `false`, and `get`, `delete` and `add` each treat the key
exactly as an absent key: `get` answers a miss, `delete` answers
`False` without deleting, and `add` proceeds to write like `set`. -/
theorem head_error_absent (c : S3Cache) (env : Nat) (st : Store) (f : Faults)
    (k : String) (v : PyValue) (t : Option Nat)
    (h : f.headFault = true) :
    (c.keyExists env st f k).fst = false ∧
    c.get env st f k = ⟨PRes.ok PyValue.none, st, [Request.head c.bucket (c.fullS3Key env k)]⟩ ∧
    c.delete env st f k = ⟨PRes.ok false, st, [Request.head c.bucket (c.fullS3Key env k)]⟩ ∧
    c.add env st f k v t = ⟨(c.set env st f k v t).result, (c.set env st f k v t).store,
      Request.head c.bucket (c.fullS3Key env k) :: (c.set env st f k v t).trace⟩ := by
  refine ⟨?_, ?_, ?_, ?_⟩ <;>
    simp [S3Cache.keyExists, S3Cache.get, S3Cache.delete, S3Cache.add, h]

/-- Witness for C5: a key that is present in the bucket is reported
absent when the head call raises. -/
theorem head_error_absent_witness :
    (sampleCache.keyExists 0 [("p/k", SBytes.enc (PyValue.int 7))]
      ⟨true, false, false, false⟩ "k").fst = false :=
  (head_error_absent sampleCache 0 [("p/k", SBytes.enc (PyValue.int 7))]
    ⟨true, false, false, false⟩ "k" (PyValue.int 0) Option.none rfl).1

/-- C1: whenever `set k v` succeeds (returns `True`), a subsequent
`get k` on the resulting store (with the storage behaving normally)
returns the value `v`: the stored payload unpickles back to `v`. -/
theorem set_then_get (c : S3Cache) (env : Nat) (st : Store) (f : Faults)
    (k : String) (v : PyValue) (t : Option Nat)
    (h : (c.set env st f k v t).result = PRes.ok true) :
    (c.get env (c.set env st f k v t).store noFaults k).result = PRes.ok v := by
  obtain ⟨hv, -, hst⟩ := set_ok_true h
  rw [hst]
  simp [S3Cache.get, S3Cache.keyExists, noFaults, lookupStore_insert_self, pickleLoad]

/-- Witness for C1: storing the integer 5 succeeds and reading it back
yields 5. -/
theorem set_then_get_witness :
    (sampleCache.set 0 [] noFaults "k" (PyValue.int 5) Option.none).result = PRes.ok true ∧
    (sampleCache.get 0 (sampleCache.set 0 [] noFaults "k" (PyValue.int 5) Option.none).store
        noFaults "k").result = PRes.ok (PyValue.int 5) :=
  ⟨rfl, set_then_get sampleCache 0 [] noFaults "k" (PyValue.int 5) Option.none rfl⟩

/-- C2: after a successful `add k v1`, an immediate `add k v2` with
`v1 ≠ v2` returns `False`, leaves the store unchanged, and `get k`
still returns `v1` (sequential execution, storage behaving normally). -/
theorem add_then_add (c : S3Cache) (env : Nat) (st : Store)
    (k : String) (v1 v2 : PyValue) (t1 t2 : Option Nat)
    (hne : v1 ≠ v2)
    (h1 : (c.add env st noFaults k v1 t1).result = PRes.ok true) :
    (c.add env (c.add env st noFaults k v1 t1).store noFaults k v2 t2).result
      = PRes.ok false ∧
    (c.add env (c.add env st noFaults k v1 t1).store noFaults k v2 t2).store
      = (c.add env st noFaults k v1 t1).store ∧
    (c.get env (c.add env st noFaults k v1 t1).store noFaults k).result
      = PRes.ok v1 := by
  cases hex : (lookupStore st (c.fullS3Key env k)).isSome with
  | true =>
    simp [S3Cache.add, S3Cache.keyExists, noFaults, hex] at h1
  | false =>
    have hadd : c.add env st noFaults k v1 t1 =
        ⟨(c.set env st noFaults k v1 t1).result, (c.set env st noFaults k v1 t1).store,
          Request.head c.bucket (c.fullS3Key env k) :: (c.set env st noFaults k v1 t1).trace⟩ := by
      simp [S3Cache.add, S3Cache.keyExists, noFaults, hex]
    rw [hadd] at h1 ⊢
    obtain ⟨hv, -, hst⟩ := set_ok_true h1
    simp only [hst]
    refine ⟨?_, ?_, ?_⟩ <;>
      simp [S3Cache.add, S3Cache.get, S3Cache.keyExists, noFaults,
        lookupStore_insert_self, pickleLoad]

/-- Witness for C2: after `add "k" 1` succeeds, `add "k" 2` fails and
`get "k"` still returns 1. -/
theorem add_then_add_witness :
    (sampleCache.add 0 (sampleCache.add 0 [] noFaults "k" (PyValue.int 1) Option.none).store
        noFaults "k" (PyValue.int 2) Option.none).result = PRes.ok false ∧
    (sampleCache.get 0 (sampleCache.add 0 [] noFaults "k" (PyValue.int 1) Option.none).store
        noFaults "k").result = PRes.ok (PyValue.int 1) :=
  ⟨(add_then_add sampleCache 0 [] "k" (PyValue.int 1) (PyValue.int 2) Option.none Option.none
      (by decide) rfl).1,
   (add_then_add sampleCache 0 [] "k" (PyValue.int 1) (PyValue.int 2) Option.none Option.none
      (by decide) rfl).2.2⟩

/-- C6: a key with no stored object yields a `get` miss and a failing
`delete`; and after a successful `set`, `delete` succeeds and a
subsequent `get` misses (storage behaving normally). -/
theorem miss_delete_semantics (c : S3Cache) (env : Nat) (st : Store)
    (k : String) (v : PyValue) (t : Option Nat) :
    (lookupStore st (c.fullS3Key env k) = Option.none →
      (c.get env st noFaults k).result = PRes.ok PyValue.none ∧
      (c.delete env st noFaults k).result = PRes.ok false) ∧
    ((c.set env st noFaults k v t).result = PRes.ok true →
      (c.delete env (c.set env st noFaults k v t).store noFaults k).result = PRes.ok true ∧
      (c.get env (c.delete env (c.set env st noFaults k v t).store noFaults k).store
          noFaults k).result = PRes.ok PyValue.none) := by
  constructor
  · intro h
    constructor <;> simp [S3Cache.get, S3Cache.delete, S3Cache.keyExists, noFaults, h]
  · intro h
    obtain ⟨hv, -, hst⟩ := set_ok_true h
    rw [hst]
    constructor
    · simp [S3Cache.delete, S3Cache.keyExists, noFaults, lookupStore_insert_self]
    · simp [S3Cache.delete, S3Cache.get, S3Cache.keyExists, noFaults,
        lookupStore_insert_self, lookupStore_remove_self]

/-- Witness for C6: on the empty bucket, `get` misses and `delete`
fails; after storing 9 at "k", `delete` succeeds and `get` misses. -/
theorem miss_delete_semantics_witness :
    ((sampleCache.get 0 [] noFaults "k").result = PRes.ok PyValue.none ∧
      (sampleCache.delete 0 [] noFaults "k").result = PRes.ok false) ∧
    ((sampleCache.delete 0 (sampleCache.set 0 [] noFaults "k" (PyValue.int 9) Option.none).store
        noFaults "k").result = PRes.ok true ∧
      (sampleCache.get 0 (sampleCache.delete 0
          (sampleCache.set 0 [] noFaults "k" (PyValue.int 9) Option.none).store
          noFaults "k").store noFaults "k").result = PRes.ok PyValue.none) :=
  ⟨(miss_delete_semantics sampleCache 0 [] "k" (PyValue.int 9) Option.none).1 rfl,
   (miss_delete_semantics sampleCache 0 [] "k" (PyValue.int 9) Option.none).2 rfl⟩

/-- C10: `set k None` succeeds and stores a real object at the full
storage key, yet `get k` on the result returns `None` — the same
answer `get` gives on a bucket where the key was never written. -/
theorem set_none_ambiguous (c : S3Cache) (env : Nat) (st : Store)
    (k : String) (t : Option Nat) :
    (c.set env st noFaults k PyValue.none t).result = PRes.ok true ∧
    lookupStore (c.set env st noFaults k PyValue.none t).store (c.fullS3Key env k)
      = Option.some (SBytes.enc PyValue.none) ∧
    (c.get env (c.set env st noFaults k PyValue.none t).store noFaults k).result
      = PRes.ok PyValue.none ∧
    (c.get env [] noFaults k).result = PRes.ok PyValue.none := by
  refine ⟨rfl, ?_, ?_, ?_⟩
  · simp [S3Cache.set, pickleDump, noFaults, lookupStore_insert_self]
  · simp [S3Cache.set, pickleDump, noFaults, S3Cache.get, S3Cache.keyExists,
      lookupStore_insert_self, pickleLoad]
  · simp [S3Cache.get, S3Cache.keyExists, noFaults, lookupStore]

/-- C3: for each of `get`, `set`, `add` and `delete`, every request
issued to the client carries the storage key obtained by evaluating
the configured namespace (literal, or callable's result) for this
operation and concatenating the logical key, with no escaping. -/
theorem request_keys (c : S3Cache) (env : Nat) (st : Store) (f : Faults)
    (k : String) (v : PyValue) (t : Option Nat) :
    c.fullS3Key env k = c.kPfx.eval env ++ k ∧
    (∀ r ∈ (c.get env st f k).trace, r.key = c.kPfx.eval env ++ k) ∧
    (∀ r ∈ (c.set env st f k v t).trace, r.key = c.kPfx.eval env ++ k) ∧
    (∀ r ∈ (c.add env st f k v t).trace, r.key = c.kPfx.eval env ++ k) ∧
    (∀ r ∈ (c.delete env st f k).trace, r.key = c.kPfx.eval env ++ k) := by
  refine ⟨rfl, ?_, ?_, ?_, ?_⟩ <;> intro r hr <;>
    simp only [S3Cache.get, S3Cache.set, S3Cache.add, S3Cache.delete,
      S3Cache.keyExists] at hr <;>
    repeat' split at hr
  all_goals
    simp_all [Request.key, S3Cache.fullS3Key, List.mem_append, List.mem_singleton]
  all_goals (rcases hr with rfl | rfl <;> rfl)

/-- Witness for C3: the head request that `get` issues for key "k"
under the literal namespace "p/" carries the storage key "p/" ++ "k". -/
theorem request_keys_witness :
    Request.key (Request.head "bucket" "p/k") = sampleCache.kPfx.eval 0 ++ "k" :=
  (request_keys sampleCache 0 [] noFaults "k" (PyValue.int 0) Option.none).2.1
    (Request.head "bucket" "p/k") (by decide)

/-- C7 counterexample: with a corrupt payload stored at the key and no
client fault, the probe succeeds but `get` propagates the unpickling
error as an exception instead of returning `None`. -/
theorem get_decode_error_cex :
    (sampleCache.keyExists 0 [("p/k", SBytes.corrupt 0)] noFaults "k").fst = true ∧
    (sampleCache.get 0 [("p/k", SBytes.corrupt 0)] noFaults "k").result
      = PRes.exn "UnpicklingError" ∧
    (sampleCache.get 0 [("p/k", SBytes.corrupt 0)] noFaults "k").result
      ≠ PRes.ok PyValue.none := by
  refine ⟨rfl, rfl, ?_⟩
  decide

/-- C7 amended: when the existence probe succeeds, a download error is
caught and `get` returns `None`; but an unpickling (decode) error is
raised *outside* the `try` block, so it propagates to the caller. -/
theorem get_download_soft_decode_hard (c : S3Cache) (env : Nat) (st : Store)
    (f : Faults) (k : String)
    (hprobe : (c.keyExists env st f k).fst = true) :
    (f.downloadFault = true → c.get env st f k = ⟨PRes.ok PyValue.none, st,
      [Request.head c.bucket (c.fullS3Key env k),
       Request.download c.bucket (c.fullS3Key env k)]⟩) ∧
    (∀ b e, f.downloadFault = false →
      lookupStore st (c.fullS3Key env k) = Option.some b →
      pickleLoad b = PRes.exn e → (c.get env st f k).result = PRes.exn e) := by
  have hb : (!f.headFault && (lookupStore st (c.fullS3Key env k)).isSome) = true := by
    simpa [S3Cache.keyExists] using hprobe
  have hh : f.headFault = false := by
    cases hf : f.headFault with
    | false => rfl
    | true => simp [hf] at hb
  have hs : lookupStore st (c.fullS3Key env k) ≠ Option.none := by
    have : (lookupStore st (c.fullS3Key env k)).isSome = true := by simpa [hh] using hb
    simpa [Option.isSome_iff_ne_none] using this
  constructor
  · intro hd
    simp [S3Cache.get, S3Cache.keyExists, hb, hh, hd, hs]
  · intro b e hd hlk hl
    simp [S3Cache.get, S3Cache.keyExists, hb, hh, hd, hlk, hl]

/-- Witness for the amended C7: a download fault yields a miss on a
present key, while a corrupt payload makes `get` raise. -/
theorem get_download_soft_decode_hard_witness :
    (sampleCache.get 0 [("p/k", SBytes.enc (PyValue.int 3))]
      ⟨false, true, false, false⟩ "k").result = PRes.ok PyValue.none ∧
    (sampleCache.get 0 [("p/k", SBytes.corrupt 1)] noFaults "k").result
      = PRes.exn "UnpicklingError" :=
  ⟨congrArg OpResult.result
    ((get_download_soft_decode_hard sampleCache 0 [("p/k", SBytes.enc (PyValue.int 3))]
      ⟨false, true, false, false⟩ "k" rfl).1 rfl),
   (get_download_soft_decode_hard sampleCache 0 [("p/k", SBytes.corrupt 1)]
      noFaults "k" rfl).2 (SBytes.corrupt 1) "UnpicklingError" rfl rfl rfl⟩

end S3Werkzeug
